import Mathlib

/-!
Verification of the Squamish kite-wind prediction engine.

All numeric fields are modelled as exact rationals (`ℚ`); the source's
arithmetic is over constants for which rational arithmetic agrees with the
intent of the formulas.  Statuses are a closed enumeration mirroring the
status strings used by the source.
-/

/-- The closed status enumeration; each constructor corresponds to one of the
status strings produced by `calculate_wind_logic` in the source. -/
inductive Status where
  | dangerStorm
  | heatBubble
  | excellent
  | good
  | light
  | rainRisk
deriving DecidableEq, Repr

/-- One canonical hourly record, as assembled by `process_data`: the
target-site fields from the site series, the reference-station pressure, and
the derived pressure gradient column. -/
structure HourlyObservation where
  time : ℕ
  temp_sq : ℚ
  pressure_sq : ℚ
  rain : ℚ
  wind_base : ℚ
  wind_gust_api : ℚ
  wind_dir : ℚ
  pressure_yvr : ℚ
  gradient : ℚ
deriving DecidableEq, Repr

/-- The (lull, steady, gust, status) tuple returned by the prediction engine. -/
structure Prediction where
  lull : ℚ
  steady : ℚ
  gust : ℚ
  status : Status
deriving DecidableEq, Repr

/-- The thermal model: the piecewise-on-gradient block of
`calculate_wind_logic` (steps under comment `# 3. Thermal Model`), returning
the thermal steady speed together with its status. -/
def thermal_model (row : HourlyObservation) : ℚ × Status :=
  if row.gradient ≥ 4.0 then (22 + (row.gradient - 4) * 2.5, Status.excellent)
  else if row.gradient ≥ 2.5 then (16 + (row.gradient - 2.5) * 2, Status.good)
  else (row.wind_base, Status.light)

/-- The prediction engine, embedding `calculate_wind_logic` from the source:
storm gate, then heat-bubble gate, then the thermal model, gust/lull
derivation, and the rain dampener.  Note that the source computes `lull`
before the rain dampener and the dampener rescales only `steady` and `gust`. -/
def calculate_wind_logic (row : HourlyObservation) : Prediction :=
  if row.rain > 2.0 ∧ row.pressure_sq < 1008 then
    ⟨0, 0, 45, Status.dangerStorm⟩
  else if row.temp_sq > 31.0 then
    ⟨5, 8, 12, Status.heatBubble⟩
  else
    let ts := thermal_model row
    let steady := ts.1
    let status := ts.2
    let gust := max (steady * 1.35) row.wind_gust_api
    let lull := steady * 0.7
    if row.rain > 0.5 ∧ status ≠ Status.light then
      ⟨lull, steady * 0.6, gust * 0.8, Status.rainRisk⟩
    else
      ⟨lull, steady, gust, status⟩

/-- Well-formedness of an hourly observation, as assumed by the spec's
engine claims: nonnegative precipitation, base wind speed and gust value. -/
def WellFormed (row : HourlyObservation) : Prop :=
  0 ≤ row.rain ∧ 0 ≤ row.wind_base ∧ 0 ≤ row.wind_gust_api

instance : DecidablePred WellFormed := fun row => by
  unfold WellFormed; infer_instance

/-- C2: For every HourlyObservation with precipitation > 2.0 mm and site
pressure < 1008 hPa, the engine returns lull=0, steady=0, gust=45 and status
DANGER_STORM, regardless of temperature or gradient. -/
theorem storm_gate_result (row : HourlyObservation)
    (hrain : row.rain > 2.0) (hpress : row.pressure_sq < 1008) :
    calculate_wind_logic row = ⟨0, 0, 45, Status.dangerStorm⟩ := by
  unfold calculate_wind_logic
  rw [if_pos ⟨hrain, hpress⟩]

/-- Witness for C2: the spec's numeric example rain = 3.0 mm,
pressure = 1005 hPa (gradient and temperature arbitrary). -/
theorem storm_gate_result_witness :
    calculate_wind_logic ⟨0, 20, 1005, 3, 10, 20, 180, 1010, 5⟩ =
      ⟨0, 0, 45, Status.dangerStorm⟩ :=
  storm_gate_result ⟨0, 20, 1005, 3, 10, 20, 180, 1010, 5⟩ (by norm_num) (by norm_num)

/-- C7: For every HourlyObservation with temperature > 31.0 °C for which the
storm condition is false, the engine returns lull=5, steady=8, gust=12 and
status HEAT_BUBBLE, regardless of gradient. -/
theorem heat_bubble_result (row : HourlyObservation)
    (htemp : row.temp_sq > 31.0)
    (hnostorm : ¬(row.rain > 2.0 ∧ row.pressure_sq < 1008)) :
    calculate_wind_logic row = ⟨5, 8, 12, Status.heatBubble⟩ := by
  unfold calculate_wind_logic
  rw [if_neg hnostorm, if_pos htemp]

/-- Witness for C7: temperature 33 °C, no rain, strong gradient. -/
theorem heat_bubble_result_witness :
    calculate_wind_logic ⟨0, 33, 1012, 0, 10, 20, 180, 1017, 5⟩ =
      ⟨5, 8, 12, Status.heatBubble⟩ :=
  heat_bubble_result ⟨0, 33, 1012, 0, 10, 20, 180, 1017, 5⟩ (by norm_num) (by norm_num)

/-- C5: past both gates, a rainy hour (precipitation > 0.5 mm) whose thermal
status is not LIGHT gets steady = thermal steady × 0.6, gust = derived
gust × 0.8 and status RAIN_RISK; an hour whose thermal status is LIGHT is
returned undampened regardless of precipitation. -/
theorem rain_dampener_spec (row : HourlyObservation)
    (hnostorm : ¬(row.rain > 2.0 ∧ row.pressure_sq < 1008))
    (hnoheat : ¬(row.temp_sq > 31.0)) :
    (row.rain > 0.5 → (thermal_model row).2 ≠ Status.light →
      calculate_wind_logic row =
        ⟨(thermal_model row).1 * 0.7,
         (thermal_model row).1 * 0.6,
         max ((thermal_model row).1 * 1.35) row.wind_gust_api * 0.8,
         Status.rainRisk⟩) ∧
    ((thermal_model row).2 = Status.light →
      calculate_wind_logic row =
        ⟨(thermal_model row).1 * 0.7,
         (thermal_model row).1,
         max ((thermal_model row).1 * 1.35) row.wind_gust_api,
         Status.light⟩) := by
  unfold calculate_wind_logic
  rw [if_neg hnostorm, if_neg hnoheat]
  constructor
  · intro hrain hstat
    rw [if_pos (show row.rain > 0.5 ∧ (thermal_model row).2 ≠ Status.light from
      ⟨hrain, hstat⟩)]
  · intro hlight
    rw [if_neg (show ¬(row.rain > 0.5 ∧ (thermal_model row).2 ≠ Status.light) by
      simp [hlight])]
    rw [hlight]

/-- Witness for C5: gradient 3.0 (GOOD, steady 17) with rain 1.0 is dampened
to steady 10.2, gust 18.36, RAIN_RISK; gradient 1.0 (LIGHT, base wind 10)
with the same rain is returned unchanged. -/
theorem rain_dampener_spec_witness :
    calculate_wind_logic ⟨0, 20, 1012, 1, 10, 0, 180, 1015, 3⟩ =
      ⟨11.9, 10.2, 18.36, Status.rainRisk⟩ ∧
    calculate_wind_logic ⟨0, 20, 1012, 1, 10, 0, 180, 1013, 1⟩ =
      ⟨7, 10, 13.5, Status.light⟩ := by
  have ht1 : thermal_model ⟨0, 20, 1012, 1, 10, 0, 180, 1015, 3⟩ =
      (17, Status.good) := by
    unfold thermal_model; norm_num
  have ht2 : thermal_model ⟨0, 20, 1012, 1, 10, 0, 180, 1013, 1⟩ =
      (10, Status.light) := by
    unfold thermal_model; norm_num
  constructor
  · have h := (rain_dampener_spec ⟨0, 20, 1012, 1, 10, 0, 180, 1015, 3⟩
      (by norm_num) (by norm_num)).1 (by norm_num) (by rw [ht1]; decide)
    rw [h, ht1]
    norm_num [Prediction.mk.injEq, max_def]
  · have h := (rain_dampener_spec ⟨0, 20, 1012, 1, 10, 0, 180, 1013, 1⟩
      (by norm_num) (by norm_num)).2 (by rw [ht2])
    rw [h, ht2]
    norm_num [Prediction.mk.injEq, max_def]

/-- Branch lemma: the storm gate fires first. -/
lemma calc_storm (row : HourlyObservation)
    (h : row.rain > 2.0 ∧ row.pressure_sq < 1008) :
    calculate_wind_logic row = ⟨0, 0, 45, Status.dangerStorm⟩ := by
  unfold calculate_wind_logic
  rw [if_pos h]

/-- Branch lemma: the heat-bubble gate fires when the storm gate does not. -/
lemma calc_heat (row : HourlyObservation)
    (h1 : ¬(row.rain > 2.0 ∧ row.pressure_sq < 1008))
    (h2 : row.temp_sq > 31.0) :
    calculate_wind_logic row = ⟨5, 8, 12, Status.heatBubble⟩ := by
  unfold calculate_wind_logic
  rw [if_neg h1, if_pos h2]

/-- Branch lemma: the rain-dampened thermal branch. -/
lemma calc_damp (row : HourlyObservation)
    (h1 : ¬(row.rain > 2.0 ∧ row.pressure_sq < 1008))
    (h2 : ¬(row.temp_sq > 31.0))
    (h3 : row.rain > 0.5 ∧ (thermal_model row).2 ≠ Status.light) :
    calculate_wind_logic row =
      ⟨(thermal_model row).1 * 0.7,
       (thermal_model row).1 * 0.6,
       max ((thermal_model row).1 * 1.35) row.wind_gust_api * 0.8,
       Status.rainRisk⟩ := by
  unfold calculate_wind_logic
  rw [if_neg h1, if_neg h2, if_pos h3]

/-- Branch lemma: the undampened thermal branch. -/
lemma calc_nodamp (row : HourlyObservation)
    (h1 : ¬(row.rain > 2.0 ∧ row.pressure_sq < 1008))
    (h2 : ¬(row.temp_sq > 31.0))
    (h3 : ¬(row.rain > 0.5 ∧ (thermal_model row).2 ≠ Status.light)) :
    calculate_wind_logic row =
      ⟨(thermal_model row).1 * 0.7,
       (thermal_model row).1,
       max ((thermal_model row).1 * 1.35) row.wind_gust_api,
       (thermal_model row).2⟩ := by
  unfold calculate_wind_logic
  rw [if_neg h1, if_neg h2, if_neg h3]

/-- The thermal model yields either the LIGHT status with the base wind speed,
or a non-LIGHT status with a steady speed of at least 16 knots. -/
lemma thermal_model_cases (row : HourlyObservation) :
    ((thermal_model row).1 = row.wind_base ∧ (thermal_model row).2 = Status.light) ∨
    (16 ≤ (thermal_model row).1 ∧ (thermal_model row).2 ≠ Status.light) := by
  unfold thermal_model
  split_ifs with h1 h2
  · exact Or.inr ⟨by simp only; nlinarith [h1], by simp only; decide⟩
  · exact Or.inr ⟨by simp only; nlinarith [h2], by simp only; decide⟩
  · exact Or.inl ⟨rfl, rfl⟩

/-- With a nonnegative base wind, the thermal steady speed is nonnegative. -/
lemma thermal_model_nonneg (row : HourlyObservation) (hb : 0 ≤ row.wind_base) :
    0 ≤ (thermal_model row).1 := by
  rcases thermal_model_cases row with ⟨he, _⟩ | ⟨he, _⟩
  · rw [he]; exact hb
  · linarith

/-- C9: for every HourlyObservation with nonnegative base wind speed and
nonnegative reported gust, the returned Prediction satisfies steady ≤ gust on
every branch, including the rain-dampened one, where the dampened gust
0.8 × max(steady × 1.35, reported gust) ≥ 1.08 × the pre-dampened steady
exceeds the dampened steady 0.6 × that value. -/
theorem steady_le_gust (row : HourlyObservation)
    (hb : 0 ≤ row.wind_base) (hg : 0 ≤ row.wind_gust_api) :
    (calculate_wind_logic row).steady ≤ (calculate_wind_logic row).gust := by
  by_cases hs : row.rain > 2.0 ∧ row.pressure_sq < 1008
  · rw [calc_storm row hs]
    norm_num
  by_cases hh : row.temp_sq > 31.0
  · rw [calc_heat row hs hh]
    norm_num
  have h0 : 0 ≤ (thermal_model row).1 := thermal_model_nonneg row hb
  have hmax : (thermal_model row).1 * 1.35 ≤
      max ((thermal_model row).1 * 1.35) row.wind_gust_api := le_max_left _ _
  by_cases hd : row.rain > 0.5 ∧ (thermal_model row).2 ≠ Status.light
  · rw [calc_damp row hs hh hd]
    simp only
    nlinarith [hmax, h0]
  · rw [calc_nodamp row hs hh hd]
    simp only
    nlinarith [hmax, h0]

/-- Witness for C9: a rain-dampened hour (gradient 3, rain 1) has
steady 10.2 ≤ gust 18.36. -/
theorem steady_le_gust_witness :
    (calculate_wind_logic ⟨0, 20, 1012, 1, 10, 2, 180, 1015, 3⟩).steady ≤
      (calculate_wind_logic ⟨0, 20, 1012, 1, 10, 2, 180, 1015, 3⟩).gust :=
  steady_le_gust ⟨0, 20, 1012, 1, 10, 2, 180, 1015, 3⟩ (by norm_num) (by norm_num)

/-- Counterexample for C1: the well-formed observation with gradient 3.0,
rain 1.0 mm (thermal steady 17) is rain-dampened to steady 10.2 while its
lull, computed before the dampener, stays at 11.9; so lull ≤ steady fails and
the claimed ordering 0 ≤ lull ≤ steady ≤ gust does not hold on the code. -/
theorem prediction_ordering_cex :
    WellFormed ⟨0, 20, 1012, 1, 10, 0, 180, 1015, 3⟩ ∧
    ¬((calculate_wind_logic ⟨0, 20, 1012, 1, 10, 0, 180, 1015, 3⟩).lull ≤
      (calculate_wind_logic ⟨0, 20, 1012, 1, 10, 0, 180, 1015, 3⟩).steady) := by
  have ht : thermal_model ⟨0, 20, 1012, 1, 10, 0, 180, 1015, 3⟩ =
      (17, Status.good) := by
    unfold thermal_model; norm_num
  have h := calc_damp ⟨0, 20, 1012, 1, 10, 0, 180, 1015, 3⟩
    (by norm_num) (by norm_num) ⟨by norm_num, by rw [ht]; decide⟩
  constructor
  · exact ⟨by norm_num, by norm_num, by norm_num⟩
  · rw [h, ht]
    norm_num

/-- C1 (amended): for every well-formed HourlyObservation, the Prediction
satisfies 0 ≤ lull, 0 ≤ steady, steady ≤ gust and lull ≤ gust; the remaining
inequality lull ≤ steady holds whenever the status is not RAIN_RISK (on
rain-dampened hours the source leaves lull at 0.7 × the pre-dampened steady
while steady drops to 0.6 × it, so there lull exceeds steady). -/
theorem prediction_ordering_amended (row : HourlyObservation)
    (h : WellFormed row) :
    0 ≤ (calculate_wind_logic row).lull ∧
    0 ≤ (calculate_wind_logic row).steady ∧
    (calculate_wind_logic row).steady ≤ (calculate_wind_logic row).gust ∧
    (calculate_wind_logic row).lull ≤ (calculate_wind_logic row).gust ∧
    ((calculate_wind_logic row).status ≠ Status.rainRisk →
      (calculate_wind_logic row).lull ≤ (calculate_wind_logic row).steady) := by
  obtain ⟨hrain0, hb, hg⟩ := h
  by_cases hs : row.rain > 2.0 ∧ row.pressure_sq < 1008
  · rw [calc_storm row hs]
    exact ⟨by norm_num, by norm_num, by norm_num, by norm_num, fun _ => by norm_num⟩
  by_cases hh : row.temp_sq > 31.0
  · rw [calc_heat row hs hh]
    exact ⟨by norm_num, by norm_num, by norm_num, by norm_num, fun _ => by norm_num⟩
  have hmax := le_max_left ((thermal_model row).1 * 1.35) row.wind_gust_api
  by_cases hd : row.rain > 0.5 ∧ (thermal_model row).2 ≠ Status.light
  · have h16 : 16 ≤ (thermal_model row).1 := by
      rcases thermal_model_cases row with ⟨_, hl⟩ | ⟨h16, _⟩
      · exact absurd hl hd.2
      · exact h16
    rw [calc_damp row hs hh hd]
    refine ⟨by simp only; nlinarith, by simp only; nlinarith,
      by simp only; nlinarith [hmax], by simp only; nlinarith [hmax],
      fun hne => absurd rfl hne⟩
  · have h0 : 0 ≤ (thermal_model row).1 := thermal_model_nonneg row hb
    rw [calc_nodamp row hs hh hd]
    refine ⟨by simp only; nlinarith, by simp only; nlinarith,
      by simp only; nlinarith [hmax], by simp only; nlinarith [hmax],
      fun _ => by simp only; nlinarith⟩

/-- Witness for C1 (amended): the EXCELLENT hour gradient 5, no rain. -/
theorem prediction_ordering_amended_witness :
    0 ≤ (calculate_wind_logic ⟨0, 20, 1012, 0, 10, 20, 180, 1017, 5⟩).lull ∧
    0 ≤ (calculate_wind_logic ⟨0, 20, 1012, 0, 10, 20, 180, 1017, 5⟩).steady ∧
    (calculate_wind_logic ⟨0, 20, 1012, 0, 10, 20, 180, 1017, 5⟩).steady ≤
      (calculate_wind_logic ⟨0, 20, 1012, 0, 10, 20, 180, 1017, 5⟩).gust ∧
    (calculate_wind_logic ⟨0, 20, 1012, 0, 10, 20, 180, 1017, 5⟩).lull ≤
      (calculate_wind_logic ⟨0, 20, 1012, 0, 10, 20, 180, 1017, 5⟩).gust ∧
    ((calculate_wind_logic ⟨0, 20, 1012, 0, 10, 20, 180, 1017, 5⟩).status ≠
        Status.rainRisk →
      (calculate_wind_logic ⟨0, 20, 1012, 0, 10, 20, 180, 1017, 5⟩).lull ≤
        (calculate_wind_logic ⟨0, 20, 1012, 0, 10, 20, 180, 1017, 5⟩).steady) :=
  prediction_ordering_amended ⟨0, 20, 1012, 0, 10, 20, 180, 1017, 5⟩
    ⟨by norm_num, by norm_num, by norm_num⟩

/-- Replace only the gradient field of an observation ("all other observation
fields held fixed"). -/
def setGradient (row : HourlyObservation) (g : ℚ) : HourlyObservation :=
  ⟨row.time, row.temp_sq, row.pressure_sq, row.rain, row.wind_base,
   row.wind_gust_api, row.wind_dir, row.pressure_yvr, g⟩

/-- Within one gradient segment, the thermal steady speed is non-decreasing
in gradient and the thermal status is constant. -/
lemma thermal_model_seg_mono (row : HourlyObservation) (g1 g2 : ℚ)
    (h12 : g1 ≤ g2)
    (hseg : (4 ≤ g1 ∧ 4 ≤ g2) ∨
            (2.5 ≤ g1 ∧ g1 < 4 ∧ 2.5 ≤ g2 ∧ g2 < 4) ∨
            (g1 < 2.5 ∧ g2 < 2.5)) :
    (thermal_model (setGradient row g1)).1 ≤
      (thermal_model (setGradient row g2)).1 ∧
    (thermal_model (setGradient row g1)).2 =
      (thermal_model (setGradient row g2)).2 := by
  have e1 : (setGradient row g1).gradient = g1 := rfl
  have e2 : (setGradient row g2).gradient = g2 := rfl
  have eb1 : (setGradient row g1).wind_base = row.wind_base := rfl
  have eb2 : (setGradient row g2).wind_base = row.wind_base := rfl
  unfold thermal_model
  rw [e1, e2, eb1, eb2]
  rcases hseg with ⟨ha, hb⟩ | ⟨ha, hb, hc, hd⟩ | ⟨ha, hb⟩
  · rw [if_pos (show g1 ≥ 4.0 by norm_num; linarith),
      if_pos (show g2 ≥ 4.0 by norm_num; linarith)]
    exact ⟨by simp only; linarith, rfl⟩
  · rw [if_neg (show ¬(g1 ≥ 4.0) by norm_num; linarith),
      if_neg (show ¬(g2 ≥ 4.0) by norm_num; linarith),
      if_pos (show g1 ≥ 2.5 by norm_num; linarith),
      if_pos (show g2 ≥ 2.5 by norm_num; linarith)]
    exact ⟨by simp only; linarith, rfl⟩
  · rw [if_neg (show ¬(g1 ≥ 4.0) by norm_num; linarith),
      if_neg (show ¬(g2 ≥ 4.0) by norm_num; linarith),
      if_neg (show ¬(g1 ≥ 2.5) by norm_num; linarith),
      if_neg (show ¬(g2 ≥ 2.5) by norm_num; linarith)]
    exact ⟨le_refl _, rfl⟩

/-- C8: with all other fields held fixed, within each gradient segment of the
thermal model (gradient ≥ 4.0; 2.5 ≤ gradient < 4.0; gradient < 2.5) the
steady speed produced by the engine is non-decreasing in gradient. -/
theorem steady_monotone_in_segment (row : HourlyObservation) (g1 g2 : ℚ)
    (h12 : g1 ≤ g2)
    (hseg : (4 ≤ g1 ∧ 4 ≤ g2) ∨
            (2.5 ≤ g1 ∧ g1 < 4 ∧ 2.5 ≤ g2 ∧ g2 < 4) ∨
            (g1 < 2.5 ∧ g2 < 2.5)) :
    (calculate_wind_logic (setGradient row g1)).steady ≤
      (calculate_wind_logic (setGradient row g2)).steady := by
  obtain ⟨hmono, hstat⟩ := thermal_model_seg_mono row g1 g2 h12 hseg
  by_cases hs : row.rain > 2.0 ∧ row.pressure_sq < 1008
  · rw [calc_storm (setGradient row g1) hs, calc_storm (setGradient row g2) hs]
  by_cases hh : row.temp_sq > 31.0
  · rw [calc_heat (setGradient row g1) hs hh, calc_heat (setGradient row g2) hs hh]
  by_cases hd : row.rain > 0.5 ∧ (thermal_model (setGradient row g1)).2 ≠ Status.light
  · have hd2 : row.rain > 0.5 ∧
        (thermal_model (setGradient row g2)).2 ≠ Status.light :=
      ⟨hd.1, hstat ▸ hd.2⟩
    rw [calc_damp (setGradient row g1) hs hh hd,
      calc_damp (setGradient row g2) hs hh hd2]
    simp only
    linarith
  · have hd2 : ¬(row.rain > 0.5 ∧
        (thermal_model (setGradient row g2)).2 ≠ Status.light) := by
      rw [← hstat]; exact hd
    rw [calc_nodamp (setGradient row g1) hs hh hd,
      calc_nodamp (setGradient row g2) hs hh hd2]
    simp only
    linarith

/-- Witness for C8: in the EXCELLENT segment, gradient 4.4 gives no more
steady wind than gradient 5 with the other fields fixed. -/
theorem steady_monotone_in_segment_witness :
    (calculate_wind_logic
        (setGradient ⟨0, 20, 1012, 0, 10, 20, 180, 1017, 5⟩ 4.4)).steady ≤
      (calculate_wind_logic
        (setGradient ⟨0, 20, 1012, 0, 10, 20, 180, 1017, 5⟩ 5)).steady :=
  steady_monotone_in_segment ⟨0, 20, 1012, 0, 10, 20, 180, 1017, 5⟩ 4.4 5
    (by norm_num) (Or.inl ⟨by norm_num, by norm_num⟩)

/-- Kiteable-threshold constant `KITE_THRESHOLD = 15` from the source. -/
def KITE_THRESHOLD : ℚ := 15

/-- Minimum-session-duration constant `MIN_DURATION = 2` from the source. -/
def MIN_DURATION : ℕ := 2

/-- The window detector, embedding `find_kite_window`: filter the day's rows
to those with steady ≥ KITE_THRESHOLD; with fewer than MIN_DURATION such rows
report no session (`none`); otherwise report the hours of the first and last
qualifying rows.  A row is the hour paired with its Prediction. -/
def find_kite_window (day : List (ℕ × Prediction)) : Option (ℕ × ℕ) :=
  let windy := day.filter fun r => KITE_THRESHOLD ≤ r.2.steady
  if windy.length < MIN_DURATION then none
  else
    match windy.head?, windy.getLast? with
    | some a, some l => some (a.1, l.1)
    | _, _ => none

/-- Row-wise application of the prediction engine over a day, embedding the
source's `df.apply(calculate_wind_logic)`. -/
def apply_logic (day : List (ℕ × HourlyObservation)) : List (ℕ × Prediction) :=
  day.map fun p => (p.1, calculate_wind_logic p.2)

/-- C4: with Q the qualifying rows (steady ≥ threshold 15): fewer than
MIN_DURATION = 2 of them yields no numeric window; otherwise the window is
[first hour of Q, last hour of Q] — first-to-last span semantics. -/
theorem find_kite_window_spec (day : List (ℕ × Prediction)) :
    (((day.filter fun r => KITE_THRESHOLD ≤ r.2.steady).length < MIN_DURATION) →
      find_kite_window day = none) ∧
    (∀ a l : ℕ × Prediction,
      (day.filter fun r => KITE_THRESHOLD ≤ r.2.steady).head? = some a →
      (day.filter fun r => KITE_THRESHOLD ≤ r.2.steady).getLast? = some l →
      MIN_DURATION ≤ (day.filter fun r => KITE_THRESHOLD ≤ r.2.steady).length →
      find_kite_window day = some (a.1, l.1)) := by
  constructor
  · intro hlen
    unfold find_kite_window
    rw [if_pos hlen]
  · intro a l hh hl hlen
    unfold find_kite_window
    rw [if_neg (not_lt.mpr hlen), hh, hl]

/-- The example day of predictions from the spec: steady ≥ 15 exactly at
hours 12, 13, 14 and 17 of the kiteable range. -/
def exampleDay : List (ℕ × Prediction) :=
  [(10, ⟨7, 10, 14, Status.light⟩),
   (11, ⟨7, 10, 14, Status.light⟩),
   (12, ⟨11.2, 16, 21.6, Status.good⟩),
   (13, ⟨11.9, 17, 23, Status.good⟩),
   (14, ⟨11.9, 17, 23, Status.good⟩),
   (15, ⟨7, 10, 14, Status.light⟩),
   (16, ⟨7, 10, 14, Status.light⟩),
   (17, ⟨11.2, 16, 21.6, Status.good⟩),
   (18, ⟨7, 10, 14, Status.light⟩)]

/-- Witness for C4: on the example day with qualifying hours {12, 13, 14, 17}
the detector reports the span 12–17 (not 12–14). -/
theorem find_kite_window_spec_witness :
    find_kite_window exampleDay = some (12, 17) := by
  have hfilter : (exampleDay.filter fun r => KITE_THRESHOLD ≤ r.2.steady) =
      [(12, ⟨11.2, 16, 21.6, Status.good⟩),
       (13, ⟨11.9, 17, 23, Status.good⟩),
       (14, ⟨11.9, 17, 23, Status.good⟩),
       (17, ⟨11.2, 16, 21.6, Status.good⟩)] := by
    norm_num [exampleDay, List.filter, KITE_THRESHOLD]
  refine (find_kite_window_spec exampleDay).2
    (12, ⟨11.2, 16, 21.6, Status.good⟩) (17, ⟨11.2, 16, 21.6, Status.good⟩)
    ?_ ?_ ?_ <;> rw [hfilter]
  · rfl
  · rfl
  · norm_num [MIN_DURATION]

/-- A reported window's start and end hours each belong to a qualifying row
(steady ≥ threshold) of the day. -/
lemma find_kite_window_mem (day : List (ℕ × Prediction)) (s e : ℕ)
    (hw : find_kite_window day = some (s, e)) :
    (∃ a ∈ day.filter fun r => KITE_THRESHOLD ≤ r.2.steady, a.1 = s) ∧
    (∃ l ∈ day.filter fun r => KITE_THRESHOLD ≤ r.2.steady, l.1 = e) := by
  unfold find_kite_window at hw
  by_cases hlen :
      (day.filter fun r => KITE_THRESHOLD ≤ r.2.steady).length < MIN_DURATION
  · rw [if_pos hlen] at hw
    exact absurd hw (by simp)
  rw [if_neg hlen] at hw
  cases hh : (day.filter fun r => KITE_THRESHOLD ≤ r.2.steady).head? with
  | none =>
    rw [hh] at hw
    simp at hw
  | some a =>
    cases hl : (day.filter fun r => KITE_THRESHOLD ≤ r.2.steady).getLast? with
    | none =>
      rw [hh, hl] at hw
      simp at hw
    | some l =>
      rw [hh, hl] at hw
      simp only [Option.some.injEq, Prod.mk.injEq] at hw
      obtain ⟨hws, hwe⟩ := hw
      have ha : a ∈ day.filter fun r => KITE_THRESHOLD ≤ r.2.steady :=
        List.mem_of_mem_head? (Option.mem_def.mpr hh)
      have hlmem : l ∈ day.filter fun r => KITE_THRESHOLD ≤ r.2.steady := by
        obtain ⟨hne, hx⟩ := List.mem_getLast?_eq_getLast (Option.mem_def.mpr hl)
        rw [hx]
        exact List.getLast_mem hne
      exact ⟨⟨a, ha, hws⟩, ⟨l, hlmem, hwe⟩⟩

/-- C10: on a day whose hours are pairwise distinct, an hour whose prediction
came from the storm gate (steady 0 < threshold 15) is never the start or end
of a reported kite window. -/
theorem storm_hour_never_window_endpoint
    (day : List (ℕ × HourlyObservation)) (h : ℕ) (obs : HourlyObservation)
    (hmem : (h, obs) ∈ day)
    (hnodup : (day.map Prod.fst).Nodup)
    (hstorm : obs.rain > 2.0 ∧ obs.pressure_sq < 1008)
    (s e : ℕ)
    (hw : find_kite_window (apply_logic day) = some (s, e)) :
    h ≠ s ∧ h ≠ e := by
  obtain ⟨⟨a, ha_mem, ha_eq⟩, ⟨l, hl_mem, hl_eq⟩⟩ :=
    find_kite_window_mem (apply_logic day) s e hw
  have key : ∀ x : ℕ × Prediction,
      x ∈ (apply_logic day).filter (fun r => KITE_THRESHOLD ≤ r.2.steady) →
      x.1 ≠ h := by
    intro x hx hxh
    obtain ⟨hx_mem, hx_p⟩ := List.mem_filter.mp hx
    obtain ⟨y, hy_mem, rfl⟩ := List.mem_map.mp hx_mem
    have hy : y = (h, obs) :=
      List.inj_on_of_nodup_map hnodup hy_mem hmem hxh
    have hsteady : (calculate_wind_logic y.2).steady = 0 := by
      rw [hy, calc_storm obs hstorm]
    have h15 : KITE_THRESHOLD ≤ (calculate_wind_logic y.2).steady :=
      of_decide_eq_true hx_p
    rw [hsteady] at h15
    norm_num [KITE_THRESHOLD] at h15
  exact ⟨fun hh' => key a ha_mem (ha_eq.trans hh'.symm),
    fun hh' => key l hl_mem (hl_eq.trans hh'.symm)⟩

/-- A concrete day: a storm hour at 10:00 followed by two EXCELLENT hours. -/
def stormDay : List (ℕ × HourlyObservation) :=
  [(10, ⟨0, 20, 1005, 3, 10, 20, 180, 1010, 5⟩),
   (12, ⟨0, 20, 1012, 0, 10, 20, 180, 1017, 5⟩),
   (13, ⟨0, 20, 1012, 0, 10, 20, 180, 1017, 5⟩)]

/-- Witness for C10: on `stormDay` the detector reports the window 12–13 and
the storm hour 10 is neither endpoint. -/
theorem storm_hour_never_window_endpoint_witness : (10 : ℕ) ≠ 12 ∧ (10 : ℕ) ≠ 13 := by
  have e1 : calculate_wind_logic ⟨0, 20, 1005, 3, 10, 20, 180, 1010, 5⟩ =
      ⟨0, 0, 45, Status.dangerStorm⟩ :=
    calc_storm _ ⟨by norm_num, by norm_num⟩
  have ht : thermal_model ⟨0, 20, 1012, 0, 10, 20, 180, 1017, 5⟩ =
      (24.5, Status.excellent) := by
    unfold thermal_model; norm_num
  have e2 : calculate_wind_logic ⟨0, 20, 1012, 0, 10, 20, 180, 1017, 5⟩ =
      ⟨17.15, 24.5, 33.075, Status.excellent⟩ := by
    rw [calc_nodamp _ (by norm_num) (by norm_num) (by rw [ht]; norm_num), ht]
    norm_num [Prediction.mk.injEq, max_def]
  have happ : apply_logic stormDay =
      [(10, ⟨0, 0, 45, Status.dangerStorm⟩),
       (12, ⟨17.15, 24.5, 33.075, Status.excellent⟩),
       (13, ⟨17.15, 24.5, 33.075, Status.excellent⟩)] := by
    simp only [apply_logic, stormDay, List.map_cons, List.map_nil, e1, e2]
  have hw : find_kite_window (apply_logic stormDay) = some (12, 13) := by
    rw [happ]
    have hf : ([(10, (⟨0, 0, 45, Status.dangerStorm⟩ : Prediction)),
        (12, ⟨17.15, 24.5, 33.075, Status.excellent⟩),
        (13, ⟨17.15, 24.5, 33.075, Status.excellent⟩)].filter
          fun r => KITE_THRESHOLD ≤ r.2.steady) =
        [(12, ⟨17.15, 24.5, 33.075, Status.excellent⟩),
         (13, ⟨17.15, 24.5, 33.075, Status.excellent⟩)] := by
      norm_num [List.filter, KITE_THRESHOLD]
    unfold find_kite_window
    rw [hf]
    norm_num [MIN_DURATION, List.getLast?]
  exact storm_hour_never_window_endpoint stormDay 10
    ⟨0, 20, 1005, 3, 10, 20, 180, 1010, 5⟩
    (List.mem_cons_self _ _) (by simp [stormDay]) ⟨by norm_num, by norm_num⟩
    12 13 hw

/-- The accuracy report: per-hour residual sequence, MAE and verdict
(`accurate = true` renders as "Accurate Logic", `false` as "Model Missed"). -/
structure AccuracyReport where
  errors : List ℚ
  mae : ℚ
  accurate : Bool
deriving DecidableEq, Repr

/-- The accuracy evaluator, embedding the accuracy block of
`render_historicals`: per-row error = predicted steady − observed base wind,
MAE = mean of the absolute errors, verdict from MAE < 5.  Each input row is
a (predicted steady, observed base speed) pair. -/
def evaluate_accuracy (rows : List (ℚ × ℚ)) : AccuracyReport :=
  let errors := rows.map fun r => r.1 - r.2
  let m := (errors.map fun x => |x|).sum / errors.length
  ⟨errors, m, decide (m < 5)⟩

/-- C6: on a nonempty day the evaluator keeps the residual sequence
predicted − observed, its MAE times the hour count equals the sum of the
absolute residuals, the verdict is "accurate" exactly when MAE < 5, and if
every predicted steady equals the observed speed then MAE = 0 and the
verdict is "accurate". -/
theorem evaluate_accuracy_spec (rows : List (ℚ × ℚ)) (hne : rows ≠ []) :
    (evaluate_accuracy rows).errors = rows.map (fun r => r.1 - r.2) ∧
    (evaluate_accuracy rows).mae * rows.length =
      (rows.map fun r => |r.1 - r.2|).sum ∧
    ((evaluate_accuracy rows).accurate = true ↔ (evaluate_accuracy rows).mae < 5) ∧
    ((∀ r ∈ rows, r.1 = r.2) →
      (evaluate_accuracy rows).mae = 0 ∧ (evaluate_accuracy rows).accurate = true) := by
  have hlen : ((rows.map fun r => r.1 - r.2).length : ℚ) = (rows.length : ℚ) := by
    rw [List.length_map]
  have hmae : (evaluate_accuracy rows).mae =
      (rows.map fun r => |r.1 - r.2|).sum / (rows.length : ℚ) := by
    show ((rows.map fun r => r.1 - r.2).map fun x => |x|).sum /
        ((rows.map fun r => r.1 - r.2).length : ℚ) = _
    rw [List.map_map, hlen]
    rfl
  have hnz : ((rows.length : ℚ)) ≠ 0 := by
    simp only [ne_eq, Nat.cast_eq_zero, List.length_eq_zero]
    exact hne
  refine ⟨rfl, ?_, decide_eq_true_iff, ?_⟩
  · rw [hmae, div_mul_cancel₀ _ hnz]
  · intro hzero
    have hsum : (rows.map fun r => |r.1 - r.2|).sum = 0 := by
      apply List.sum_eq_zero
      intro x hx
      obtain ⟨r, hr, hfx⟩ := List.mem_map.mp hx
      rw [← hfx, hzero r hr]
      simp
    have h0 : (evaluate_accuracy rows).mae = 0 := by
      rw [hmae, hsum, zero_div]
    refine ⟨h0, ?_⟩
    show decide ((evaluate_accuracy rows).mae < 5) = true
    rw [h0]
    norm_num

/-- Witness for C6: a two-hour day whose predictions match the observations
exactly has MAE 0 and an accurate verdict. -/
theorem evaluate_accuracy_spec_witness :
    (evaluate_accuracy [((16 : ℚ), (16 : ℚ)), (24.5, 24.5)]).mae = 0 ∧
    (evaluate_accuracy [((16 : ℚ), (16 : ℚ)), (24.5, 24.5)]).accurate = true :=
  (evaluate_accuracy_spec [((16 : ℚ), (16 : ℚ)), (24.5, 24.5)]
      (by simp)).2.2.2 (by norm_num)

/-- The raw hourly series for the target site, keyed by the field names the
source reads from the provider payload.  Timestamps are abstracted to ℕ. -/
structure RawSeriesSite where
  time : List ℕ
  temperature_2m : List ℚ
  pressure_msl : List ℚ
  precipitation : List ℚ
  windspeed_10m : List ℚ
  windgusts_10m : List ℚ
  winddirection_10m : List ℚ
deriving DecidableEq, Repr

/-- The raw pressure-only series for the reference station.  The source only
ever reads its `pressure_msl` column; its own timestamps are never consulted. -/
structure RawSeriesRef where
  time : List ℕ
  pressure_msl : List ℚ
deriving DecidableEq, Repr

/-- The normalizer, embedding `process_data`: the tabular constructor demands
equal column lengths — on a length mismatch the source's exception handler
swallows the error and yields an empty table — and otherwise the columns are
zipped positionally, with gradient = reference pressure − site pressure; the
reference series' timestamps are ignored entirely. -/
def process_data (sq : RawSeriesSite) (yvr : RawSeriesRef) :
    List HourlyObservation :=
  if sq.temperature_2m.length = sq.time.length ∧
     sq.pressure_msl.length = sq.time.length ∧
     sq.precipitation.length = sq.time.length ∧
     sq.windspeed_10m.length = sq.time.length ∧
     sq.windgusts_10m.length = sq.time.length ∧
     sq.winddirection_10m.length = sq.time.length ∧
     yvr.pressure_msl.length = sq.time.length then
    (List.range sq.time.length).map fun i =>
      ⟨sq.time.getD i 0, sq.temperature_2m.getD i 0, sq.pressure_msl.getD i 0,
       sq.precipitation.getD i 0, sq.windspeed_10m.getD i 0,
       sq.windgusts_10m.getD i 0, sq.winddirection_10m.getD i 0,
       yvr.pressure_msl.getD i 0,
       yvr.pressure_msl.getD i 0 - sq.pressure_msl.getD i 0⟩
  else []

/-- C3 (failing input): two equal-length series whose timestamp sets differ
in content (site hour 0 vs reference hour 5) are silently zipped into a
nonempty result instead of failing with a MisalignedSeriesError; no such
error exists anywhere in the source. -/
theorem misaligned_series_silently_zipped :
    (RawSeriesSite.mk [0] [20] [1012] [0] [10] [20] [180]).time ≠
      (RawSeriesRef.mk [5] [1015]).time ∧
    process_data (RawSeriesSite.mk [0] [20] [1012] [0] [10] [20] [180])
        (RawSeriesRef.mk [5] [1015]) =
      [⟨0, 20, 1012, 0, 10, 20, 180, 1015, 3⟩] := by
  constructor
  · simp
  · unfold process_data
    norm_num [List.range_succ, List.getD]
